import Mathlib

/-!
Verification of the generic-device-plugin core (a Kubernetes kubelet
device-plugin framework written in Rust, ~260 lines).

The development shallowly embeds the two source files:

* `src/service.rs` — the protocol adapter: the `DevicePlugin` service
  implementation that delegates each wire-protocol method to the
  `GenericDevicePlugin` trait, including the `ListAndWatch`
  polling/diffing loop;
* `src/lib.rs` — the socket lifecycle manager `run` loop and the
  registration client payload.

Effectful Rust code is embedded by explicit result passing: each
fallible external step (connecting, binding, removing a file,
registering) becomes an `Except`-valued input, and a loop over time
becomes structural recursion over the finite list of per-tick outcomes.
Machine integers that appear (protobuf `i32`/`i64` fields) are modelled
as `Int`; no arithmetic is performed on them, so no overflow modelling
is needed.
-/

/-- Decidable equality for `Except`, component-wise. -/
instance instDecEqExcept {ε : Type u} {α : Type v} [DecidableEq ε] [DecidableEq α] :
    DecidableEq (Except ε α)
  | .error e1, .error e2 =>
    if h : e1 = e2 then .isTrue (by rw [h]) else .isFalse (fun he => by cases he; exact h rfl)
  | .error _, .ok _ => .isFalse (fun he => by cases he)
  | .ok _, .error _ => .isFalse (fun he => by cases he)
  | .ok a1, .ok a2 =>
    if h : a1 = a2 then .isTrue (by rw [h]) else .isFalse (fun he => by cases he; exact h rfl)

/-- Whether an `Except` value is an error (Rust `Result::is_err`). -/
def Except.isError : Except ε α → Bool
  | .error _ => true
  | .ok _ => false

/-! ## Protobuf data model (`v1beta1` messages used by the source) -/

/-- gRPC-style status, as carried by `tonic::Status`: a code plus a message.
The source constructs `Status::unknown("")` as the watch-loop sentinel. -/
structure Status where
  code : Nat
  message : String
deriving DecidableEq, Repr

/-- Rust `Status::unknown(msg)` (gRPC code 2). -/
def Status.unknown (msg : String) : Status :=
  { code := 2, message := msg }

/-- NUMA node referenced by a device's topology. -/
structure NumaNode where
  id : Int
deriving DecidableEq, Repr

/-- Topology info attached to a device. -/
structure TopologyInfo where
  nodes : List NumaNode
deriving DecidableEq, Repr

/-- A device advertised by the plugin: id, health string, optional topology. -/
structure Device where
  id : String
  health : String
  topology : Option TopologyInfo
deriving DecidableEq, Repr

/-- Mount entry of a container allocate response. -/
structure Mount where
  container_path : String
  host_path : String
  read_only : Bool
deriving DecidableEq, Repr

/-- Host device node exposure description. -/
structure DeviceSpec where
  container_path : String
  host_path : String
  permissions : String
deriving DecidableEq, Repr

/-- CDI device reference. -/
structure CdiDevice where
  name : String
deriving DecidableEq, Repr

/-- Per-container allocate response, produced by the plugin and forwarded verbatim. -/
structure ContainerAllocateResponse where
  envs : List (String × String)
  mounts : List Mount
  devices : List DeviceSpec
  annotations : List (String × String)
  cdi_devices : List CdiDevice
deriving DecidableEq, Repr

/-- Per-container preferred-allocation response. -/
structure ContainerPreferredAllocationResponse where
  device_ids : List String
deriving DecidableEq, Repr

/-- Per-container allocate request (field `devices_ids` as in the generated pb code). -/
structure ContainerAllocateRequest where
  devices_ids : List String
deriving DecidableEq, Repr

/-- Allocate request: one entry per container. -/
structure AllocateRequest where
  container_requests : List ContainerAllocateRequest
deriving DecidableEq, Repr

/-- Allocate response: one entry per container. -/
structure AllocateResponse where
  container_responses : List ContainerAllocateResponse
deriving DecidableEq, Repr

/-- Per-container preferred-allocation request (pb field spellings kept). -/
structure ContainerPreferredAllocationRequest where
  available_device_i_ds : List String
  must_include_device_i_ds : List String
  allocation_size : Int
deriving DecidableEq, Repr

/-- Preferred-allocation request: one entry per container. -/
structure PreferredAllocationRequest where
  container_requests : List ContainerPreferredAllocationRequest
deriving DecidableEq, Repr

/-- Preferred-allocation response: one entry per container. -/
structure PreferredAllocationResponse where
  container_responses : List ContainerPreferredAllocationResponse
deriving DecidableEq, Repr

/-- PreStartContainer request. -/
structure PreStartContainerRequest where
  devices_ids : List String
deriving DecidableEq, Repr

/-- PreStartContainer response (empty acknowledgment). -/
structure PreStartContainerResponse where
deriving DecidableEq, Repr

/-- Flags communicated to the device manager. -/
structure DevicePluginOptions where
  pre_start_required : Bool
  get_preferred_allocation_available : Bool
deriving DecidableEq, Repr

/-- One item of the `ListAndWatch` stream. -/
structure ListAndWatchResponse where
  devices : List Device
deriving DecidableEq, Repr

/-- Registration payload sent to the kubelet socket. -/
structure RegisterRequest where
  endpoint : String
  resource_name : String
  version : String
  options : Option DevicePluginOptions
deriving DecidableEq, Repr

/-! ## The plugin contract (`GenericDevicePlugin` trait of `src/service.rs`)

The trait's associated constants become fields; the async trait methods
become `Except`-valued functions.  `get_devices` is called once per poll
tick, so for the watch loop its successive results are supplied as an
explicit list of per-tick outcomes. -/

/-- The plugin contract: static configuration plus the fallible operations. -/
structure GenericDevicePlugin where
  pre_start_required : Bool
  get_preferred_allocation_available : Bool
  resource_name : String
  container_allocate : List String → Except Status ContainerAllocateResponse
  get_container_preferred_allocation :
    List String → List String → Int → Except Status ContainerPreferredAllocationResponse
  pre_start_container : List String → Except Status Unit

/-! ## Protocol adapter (`impl DevicePlugin for DP` in `src/service.rs`) -/

/-- Embeds `get_device_plugin_options`: returns the two static flags; no failure path. -/
def get_device_plugin_options (dp : GenericDevicePlugin) : Except Status DevicePluginOptions :=
  Except.ok
    { pre_start_required := dp.pre_start_required
      get_preferred_allocation_available := dp.get_preferred_allocation_available }

/-- One poll-tick outcome of `DP::get_devices()`. -/
abbrev Snapshot : Type := Except Status (List Device)

/-- The emission condition of the watch loop, line for line:
`devices_resp.is_err() || devices_resp.as_ref().ok() != prev_devices.as_ref().ok()`. -/
def shouldEmit (prev_devices devices_resp : Snapshot) : Bool :=
  devices_resp.isError || decide (devices_resp.toOption ≠ prev_devices.toOption)

/-- The sentinel the loop starts from: `let mut prev_devices = Err(Status::unknown(""))`. -/
def initialPrev : Snapshot :=
  Except.error (Status.unknown "")

/-- The body of the spawned polling loop of `list_and_watch`, run over a finite
list of per-tick `get_devices` outcomes (the channel is kept open throughout):
a tick's result is emitted, and `prev_devices` updated to it, exactly when the
source's condition holds; otherwise the tick is skipped. Returns the emitted items. -/
def listAndWatchGo (prev_devices : Snapshot) : List Snapshot → List Snapshot
  | [] => []
  | devices_resp :: rest =>
    if shouldEmit prev_devices devices_resp then
      devices_resp :: listAndWatchGo devices_resp rest
    else
      listAndWatchGo prev_devices rest

/-- The items emitted by a `ListAndWatch` polling task over the given ticks,
starting from the error sentinel. -/
def listAndWatchEmitted (polls : List Snapshot) : List Snapshot :=
  listAndWatchGo initialPrev polls

/-- The value of `prev_devices` after the loop has processed the given ticks. -/
def watchState (prev_devices : Snapshot) : List Snapshot → Snapshot
  | [] => prev_devices
  | devices_resp :: rest =>
    watchState (if shouldEmit prev_devices devices_resp then devices_resp else prev_devices) rest

/-- Wraps one emitted snapshot for the stream, as in
`devices_resp.map(|x| ListAndWatchResponse { devices: x })`: a success becomes
a `ListAndWatchResponse`, an error stays an error item. -/
def toStreamItem (r : Snapshot) : Except Status ListAndWatchResponse :=
  r.map (fun x => { devices := x })

/-- Embeds the `list_and_watch` handler itself: it unconditionally returns a
successful response carrying the stream of emitted items. -/
def list_and_watch (polls : List Snapshot) :
    Except Status (List (Except Status ListAndWatchResponse)) :=
  Except.ok ((listAndWatchEmitted polls).map toStreamItem)

/-- The `for req in request.container_requests` loop of `allocate`: pushes the
plugin's response per container, aborting on the first error (`?`). -/
def allocateGo (dp : GenericDevicePlugin) :
    List ContainerAllocateRequest → Except Status (List ContainerAllocateResponse)
  | [] => Except.ok []
  | req :: rest =>
    match dp.container_allocate req.devices_ids with
    | .error e => .error e
    | .ok resp =>
      match allocateGo dp rest with
      | .error e => .error e
      | .ok resps => .ok (resp :: resps)

/-- Embeds the `allocate` RPC handler. -/
def allocate (dp : GenericDevicePlugin) (request : AllocateRequest) :
    Except Status AllocateResponse :=
  (allocateGo dp request.container_requests).map (fun rs => { container_responses := rs })

/-- Instrumentation of the `allocate` loop: the list of `device_ids` arguments
actually passed to `container_allocate`, in call order; after a failing call no
further container is attempted (the `?` operator returns from the method). -/
def allocateCalls (dp : GenericDevicePlugin) :
    List ContainerAllocateRequest → List (List String)
  | [] => []
  | req :: rest =>
    match dp.container_allocate req.devices_ids with
    | .error _ => [req.devices_ids]
    | .ok _ => req.devices_ids :: allocateCalls dp rest

/-- The per-container loop of `get_preferred_allocation`, aborting on the first
error (`?`), passing the three request fields positionally. -/
def getPreferredAllocationGo (dp : GenericDevicePlugin) :
    List ContainerPreferredAllocationRequest →
      Except Status (List ContainerPreferredAllocationResponse)
  | [] => Except.ok []
  | req :: rest =>
    match dp.get_container_preferred_allocation
        req.available_device_i_ds req.must_include_device_i_ds req.allocation_size with
    | .error e => .error e
    | .ok resp =>
      match getPreferredAllocationGo dp rest with
      | .error e => .error e
      | .ok resps => .ok (resp :: resps)

/-- Embeds the `get_preferred_allocation` RPC handler. -/
def get_preferred_allocation (dp : GenericDevicePlugin)
    (request : PreferredAllocationRequest) : Except Status PreferredAllocationResponse :=
  (getPreferredAllocationGo dp request.container_requests).map
    (fun rs => { container_responses := rs })

/-- Instrumentation of the `get_preferred_allocation` loop: the argument
triples actually passed to `get_container_preferred_allocation`, in call order. -/
def getPreferredAllocationCalls (dp : GenericDevicePlugin) :
    List ContainerPreferredAllocationRequest → List (List String × List String × Int)
  | [] => []
  | req :: rest =>
    match dp.get_container_preferred_allocation
        req.available_device_i_ds req.must_include_device_i_ds req.allocation_size with
    | .error _ =>
      [(req.available_device_i_ds, req.must_include_device_i_ds, req.allocation_size)]
    | .ok _ =>
      (req.available_device_i_ds, req.must_include_device_i_ds, req.allocation_size) ::
        getPreferredAllocationCalls dp rest

/-- Embeds the `pre_start_container` RPC handler: one delegation to the plugin
with the request's `devices_ids`, then an empty acknowledgment. -/
def pre_start_container (dp : GenericDevicePlugin) (request : PreStartContainerRequest) :
    Except Status PreStartContainerResponse :=
  (dp.pre_start_container request.devices_ids).map (fun _ => {})

example :
    listAndWatchEmitted
      [Except.ok [({ id := "mock0", health := "Healthy", topology := none } : Device)],
       Except.ok [{ id := "mock0", health := "Healthy", topology := none }],
       Except.ok [{ id := "mock0", health := "Unhealthy", topology := none }]] =
      [Except.ok [({ id := "mock0", health := "Healthy", topology := none } : Device)],
       Except.ok [{ id := "mock0", health := "Unhealthy", topology := none }]] := by
  decide

/-! ## Socket lifecycle manager (`GenericDevicePluginServer::run` of `src/lib.rs`)

The loop body's external effects are embedded as explicit per-iteration
outcomes: the result of the probing `UnixStream::connect`, of
`fs::remove_file` on a stale socket, of `UnixListener::bind`, of creating
and starting the filesystem watcher, of `register()`, and of the final
best-effort `fs::remove_file`.  The infinite `loop` is run over a finite
list of such iteration environments; an `Except.ok` result means the
loop is still running after consuming them all. -/

/-- Fixed protocol version string (`static VERSION` of `src/lib.rs`). -/
def VERSION : String := "v1beta1"

/-- Kind of the error returned by the probing `UnixStream::connect`. -/
inductive ConnectError where
  | notFound
  | connectionRefused
  | other (msg : String)
deriving DecidableEq, Repr

/-- An I/O error from one of the other fallible steps of the loop body. -/
structure IoError where
  msg : String
deriving DecidableEq, Repr

/-- The `anyhow` error `run` can return: one of its two `bail!` messages, or
an I/O error propagated by `?`. -/
inductive RunError where
  | udsUnavailable (e : ConnectError)
  | activeSocket
  | io (e : IoError)
deriving DecidableEq, Repr

/-- External outcomes driving one iteration of the `run` loop. -/
structure IterEnv where
  connect_result : Except ConnectError Unit
  remove_stale_result : Except IoError Unit
  bind_result : Except IoError Unit
  watcher_create_result : Except IoError Unit
  watcher_watch_result : Except IoError Unit
  register_result : Except IoError Unit
  final_remove_result : Except IoError Unit
deriving DecidableEq, Repr

/-- Observable actions of one completed iteration of the `run` loop.
`removed_stale_socket` records whether probing deleted a stale socket file;
`attempted_final_remove` records that the best-effort `fs::remove_file` after
the serving task ended was attempted (its own result is ignored by the code). -/
structure IterTrace where
  removed_stale_socket : Bool
  bound : Bool
  served : Bool
  registered : Bool
  attempted_final_remove : Bool
deriving DecidableEq, Repr

/-- The probing `match` at the top of the loop body, arm for arm:
`NotFound` proceeds with no cleanup, `ConnectionRefused` proceeds after
`fs::remove_file(&socket_path)?`, any other error and a successful
connection `bail!`.  Returns whether the stale socket file was removed. -/
def probeStep (connect_result : Except ConnectError Unit)
    (remove_stale_result : Except IoError Unit) : Except RunError Bool :=
  match connect_result with
  | .error .notFound => .ok false
  | .error .connectionRefused =>
    match remove_stale_result with
    | .ok _ => .ok true
    | .error e => .error (.io e)
  | .error e => .error (.udsUnavailable e)
  | .ok _ => .error .activeSocket

/-- One iteration of the `run` loop body, `src/lib.rs` lines 61–98: probe,
bind, create the watcher, watch the socket path, spawn the serving task,
register; then await the serving task (result ignored) and remove the socket
file best-effort (result ignored). -/
def runIter (env : IterEnv) : Except RunError IterTrace :=
  match probeStep env.connect_result env.remove_stale_result with
  | .error er => .error er
  | .ok removed =>
    match env.bind_result with
    | .error e => .error (.io e)
    | .ok _ =>
      match env.watcher_create_result with
      | .error e => .error (.io e)
      | .ok _ =>
        match env.watcher_watch_result with
        | .error e => .error (.io e)
        | .ok _ =>
          match env.register_result with
          | .error e => .error (.io e)
          | .ok _ =>
            .ok
              { removed_stale_socket := removed
                bound := true
                served := true
                registered := true
                attempted_final_remove := true }

/-- The `run` loop over a finite list of iteration environments.  The source
loop has no `break` and no `return Ok`: the only exits are error propagation,
so `Except.ok` here means only that the supplied environments are exhausted
with every iteration completed. -/
def run : List IterEnv → Except RunError (List IterTrace)
  | [] => Except.ok []
  | env :: rest =>
    match runIter env with
    | .error er => .error er
    | .ok t =>
      match run rest with
      | .error er => .error er
      | .ok ts => .ok (t :: ts)

/-- The registration payload built by `register()` in `src/lib.rs`:
`endpoint` is the plugin's socket file name, `resource_name` and the two
option flags come from the plugin unmodified, `version` is the fixed string. -/
def register_request (dp : GenericDevicePlugin) (socket_name : String) : RegisterRequest :=
  { endpoint := socket_name
    resource_name := dp.resource_name
    version := VERSION
    options := some
      { pre_start_required := dp.pre_start_required
        get_preferred_allocation_available := dp.get_preferred_allocation_available } }

/-- Replace only the two capability flags of a plugin, keeping its operations. -/
def withFlags (dp : GenericDevicePlugin) (psr gpaa : Bool) : GenericDevicePlugin :=
  { dp with pre_start_required := psr, get_preferred_allocation_available := gpaa }

/-! ## Helper lemmas about the watch loop -/

/-- Against the initial error sentinel, every poll result triggers emission:
an error because of `is_err()`, a success because `Some(list) ≠ None`. -/
theorem shouldEmit_initial (r : Snapshot) : shouldEmit initialPrev r = true := by
  cases r with
  | error e => rfl
  | ok l =>
    simp [shouldEmit, initialPrev, Except.isError, Except.toOption]

/-- Appending one more tick either appends its emission or leaves the output
unchanged, decided by `shouldEmit` against the loop state after the prefix. -/
theorem listAndWatchGo_append (prev : Snapshot) (xs : List Snapshot) (r : Snapshot) :
    listAndWatchGo prev (xs ++ [r]) =
      listAndWatchGo prev xs ++
        (if shouldEmit (watchState prev xs) r then [r] else []) := by
  induction xs generalizing prev with
  | nil => simp [listAndWatchGo, watchState]
  | cons x xs ih =>
    simp only [List.cons_append, listAndWatchGo, watchState]
    by_cases h : shouldEmit prev x
    · simp [h, ih]
    · simp [h, ih]

/-- The loop state equals the last emitted item (or the start state when
nothing has been emitted yet). -/
theorem watchState_eq_getLastD (prev : Snapshot) (xs : List Snapshot) :
    watchState prev xs = (listAndWatchGo prev xs).getLastD prev := by
  induction xs generalizing prev with
  | nil => rfl
  | cons x xs ih =>
    simp only [watchState, listAndWatchGo]
    by_cases h : shouldEmit prev x
    · simp only [h, if_true, List.getLastD_cons]
      exact ih x
    · simp only [h, if_false]
      exact ih prev

/-- A tick that is not emitted is in particular not an error. -/
theorem shouldEmit_false_not_error (prev r : Snapshot) (h : shouldEmit prev r = false) :
    r.isError = false := by
  unfold shouldEmit at h
  exact (Bool.or_eq_false_iff.mp h).1

/-- Error ticks are emitted with multiplicity: the emitted list contains
exactly as many error items as the poll sequence. -/
theorem countP_isError_listAndWatchGo (prev : Snapshot) (polls : List Snapshot) :
    (listAndWatchGo prev polls).countP (fun r => r.isError) =
      polls.countP (fun r => r.isError) := by
  induction polls generalizing prev with
  | nil => rfl
  | cons r rs ih =>
    simp only [listAndWatchGo]
    by_cases h : shouldEmit prev r
    · simp [h, List.countP_cons, ih]
    · have hr := shouldEmit_false_not_error prev r (Bool.eq_false_iff.mpr h)
      simp [h, List.countP_cons, ih, hr]

/-! ## Claim theorems -/

/-- C4: the very first poll result of a `ListAndWatch` polling task is always
emitted, whatever its content: the comparison state is initialised to an error
sentinel, so a first error, a first success, and in particular a first empty
device list all count as a change and are sent. -/
theorem first_poll_always_emitted (r : Snapshot) (rs : List Snapshot) :
    initialPrev.isError = true ∧
    (listAndWatchEmitted (r :: rs)).head? = some r ∧
    (listAndWatchEmitted (Except.ok ([] : List Device) :: rs)).head? =
      some (Except.ok []) := by
  refine ⟨rfl, ?_, ?_⟩ <;>
    simp [listAndWatchEmitted, listAndWatchGo, shouldEmit_initial]

/-- C6: the registration payload carries the configured `resource_name` and
the two capability flags unmodified, the plugin's socket file name as
`endpoint`, and the fixed version string; `GetDevicePluginOptions` always
succeeds with exactly the two configured flags. -/
theorem config_reported_verbatim (dp : GenericDevicePlugin) (socket_name : String) :
    (register_request dp socket_name).endpoint = socket_name ∧
    (register_request dp socket_name).resource_name = dp.resource_name ∧
    (register_request dp socket_name).version = "v1beta1" ∧
    (register_request dp socket_name).options =
      some { pre_start_required := dp.pre_start_required
             get_preferred_allocation_available := dp.get_preferred_allocation_available } ∧
    get_device_plugin_options dp =
      Except.ok { pre_start_required := dp.pre_start_required
                  get_preferred_allocation_available := dp.get_preferred_allocation_available } :=
  ⟨rfl, rfl, rfl, rfl, rfl⟩

/-- C9: snapshot comparison is order-sensitive structural equality of the
device list: two successful snapshots holding the same devices in a different
order compare unequal, so the second is emitted as a new stream item. -/
theorem snapshot_equality_order_sensitive (l1 l2 : List Device)
    (_hperm : l1.Perm l2) (hne : l1 ≠ l2) :
    listAndWatchEmitted [Except.ok l1, Except.ok l2] =
      [Except.ok l1, Except.ok l2] := by
  have h2 : shouldEmit (Except.ok l1) (Except.ok l2) = true := by
    simp only [shouldEmit, Except.isError, Except.toOption, Bool.false_or,
      decide_eq_true_eq, ne_eq, Option.some.injEq]
    exact fun h => hne h.symm
  simp [listAndWatchEmitted, listAndWatchGo, shouldEmit_initial, h2]

/-- C9 witness: two devices enumerated in swapped order on the second tick
produce a second stream item. -/
theorem snapshot_equality_order_sensitive_witness :
    listAndWatchEmitted
      [Except.ok [({ id := "d0", health := "Healthy", topology := none } : Device),
                  { id := "d1", health := "Healthy", topology := none }],
       Except.ok [{ id := "d1", health := "Healthy", topology := none },
                  { id := "d0", health := "Healthy", topology := none }]] =
      [Except.ok [({ id := "d0", health := "Healthy", topology := none } : Device),
                  { id := "d1", health := "Healthy", topology := none }],
       Except.ok [{ id := "d1", health := "Healthy", topology := none },
                  { id := "d0", health := "Healthy", topology := none }]] :=
  snapshot_equality_order_sensitive
    [{ id := "d0", health := "Healthy", topology := none },
     { id := "d1", health := "Healthy", topology := none }]
    [{ id := "d1", health := "Healthy", topology := none },
     { id := "d0", health := "Healthy", topology := none }]
    (List.Perm.swap _ _ _) (by decide)

/-- C5: the probing step proceeds with no cleanup on `NotFound`, removes the
stale socket file and proceeds on `ConnectionRefused`, and is fatal both when
the connection succeeds and on any other I/O error; a fatal probe outcome is
the result of the whole iteration of `run`. -/
theorem probing_case_analysis (s : String) (rr : Except IoError Unit) (e : IoError)
    (env : IterEnv) :
    probeStep (Except.error ConnectError.notFound) rr = Except.ok false ∧
    probeStep (Except.error ConnectError.connectionRefused) (Except.ok ()) = Except.ok true ∧
    probeStep (Except.error ConnectError.connectionRefused) (Except.error e) =
      Except.error (RunError.io e) ∧
    probeStep (Except.ok ()) rr = Except.error RunError.activeSocket ∧
    probeStep (Except.error (ConnectError.other s)) rr =
      Except.error (RunError.udsUnavailable (ConnectError.other s)) ∧
    ∀ er, probeStep env.connect_result env.remove_stale_result = Except.error er →
      runIter env = Except.error er := by
  refine ⟨rfl, rfl, rfl, rfl, rfl, ?_⟩
  intro er h
  unfold runIter
  rw [h]

/-- C5 witness: probing a socket with an active listener is fatal for `run`. -/
theorem probing_case_analysis_witness :
    runIter
      { connect_result := Except.ok ()
        remove_stale_result := Except.ok ()
        bind_result := Except.ok ()
        watcher_create_result := Except.ok ()
        watcher_watch_result := Except.ok ()
        register_result := Except.ok ()
        final_remove_result := Except.ok () } = Except.error RunError.activeSocket :=
  (probing_case_analysis "x" (Except.ok ()) { msg := "x" }
      { connect_result := Except.ok ()
        remove_stale_result := Except.ok ()
        bind_result := Except.ok ()
        watcher_create_result := Except.ok ()
        watcher_watch_result := Except.ok ()
        register_result := Except.ok ()
        final_remove_result := Except.ok () }).2.2.2.2.2
    RunError.activeSocket rfl

/-- C10: the `ListAndWatch` handler itself always returns a successful
response carrying the stream; enumeration failures appear only as error items
on the stream (with multiplicity: one item per failing tick), never as a
failure of the call. -/
theorem list_and_watch_rpc_always_ok (polls : List Snapshot) :
    (list_and_watch polls).isOk = true ∧
    ∃ items, list_and_watch polls = Except.ok items ∧
      items.countP (fun item => item.isError) = polls.countP (fun r => r.isError) := by
  refine ⟨rfl, ?_⟩
  refine ⟨(listAndWatchEmitted polls).map toStreamItem, rfl, ?_⟩
  rw [List.countP_map]
  have hcomp :
      ((fun item => Except.isError item) ∘ toStreamItem) =
        fun r : Snapshot => r.isError := by
    funext r
    cases r <;> rfl
  rw [hcomp]
  exact countP_isError_listAndWatchGo initialPrev polls

/-- Restates `listAndWatchGo_append` for the full loop started at the sentinel. -/
theorem listAndWatchEmitted_append (xs : List Snapshot) (r : Snapshot) :
    listAndWatchEmitted (xs ++ [r]) =
      listAndWatchEmitted xs ++
        (if shouldEmit (watchState initialPrev xs) r then [r] else []) :=
  listAndWatchGo_append initialPrev xs r

/-- Once something has been emitted, the loop state is the last emitted item. -/
theorem watchState_initial_getLast (xs : List Snapshot)
    (h : listAndWatchEmitted xs ≠ []) :
    watchState initialPrev xs = (listAndWatchEmitted xs).getLast h := by
  rw [watchState_eq_getLastD initialPrev xs]
  show (listAndWatchEmitted xs).getLastD initialPrev = _
  rw [List.getLastD_eq_getLast?, List.getLast?_eq_getLast _ h]
  rfl

/-- C1: on every poll tick after the first emission, the new result is
emitted iff it is an error, or it is a success whose device list differs from
that of the last emitted snapshot; in particular identical consecutive errors
are both emitted, and a success identical to the last emitted success is not. -/
theorem watch_emits_iff_error_or_changed (polls : List Snapshot) (i : Nat)
    (hi : i < polls.length)
    (hfirst : listAndWatchEmitted (polls.take i) ≠ []) :
    (listAndWatchEmitted (polls.take (i + 1)) =
        listAndWatchEmitted (polls.take i) ++ [polls[i]])
      ↔ ((polls[i] : Snapshot).isError = true ∨
          (polls[i] : Snapshot).toOption ≠
            ((listAndWatchEmitted (polls.take i)).getLast hfirst).toOption) := by
  have htake : polls.take (i + 1) = polls.take i ++ [polls[i]] := by
    rw [List.take_succ, List.getElem?_eq_getElem hi]
    rfl
  rw [htake, listAndWatchEmitted_append, watchState_initial_getLast _ hfirst]
  by_cases hc : shouldEmit ((listAndWatchEmitted (polls.take i)).getLast hfirst) polls[i]
  · rw [if_pos hc]
    unfold shouldEmit at hc
    rcases Bool.or_eq_true_iff.mp hc with h | h
    · exact iff_of_true rfl (Or.inl h)
    · exact iff_of_true rfl (Or.inr (of_decide_eq_true h))
  · rw [if_neg hc]
    have hcf : shouldEmit ((listAndWatchEmitted (polls.take i)).getLast hfirst) polls[i]
        = false := Bool.eq_false_iff.mpr hc
    unfold shouldEmit at hcf
    rw [Bool.or_eq_false_iff] at hcf
    apply iff_of_false
    · intro h
      have hlen := congrArg List.length h
      simp at hlen
    · intro h
      rcases h with h | h
      · rw [hcf.1] at h
        exact Bool.false_ne_true h
      · exact (of_decide_eq_false hcf.2) h

/-- C1 witness: enumeration fails identically on two consecutive ticks; the
second identical error is emitted again (tick 1 is after the first emission). -/
theorem watch_emits_iff_error_or_changed_witness :
    listAndWatchEmitted
        (([Except.error (Status.unknown "boom"),
           Except.error (Status.unknown "boom")] : List Snapshot).take 2) =
      listAndWatchEmitted
          (([Except.error (Status.unknown "boom"),
             Except.error (Status.unknown "boom")] : List Snapshot).take 1) ++
        [Except.error (Status.unknown "boom")] :=
  (watch_emits_iff_error_or_changed
      [Except.error (Status.unknown "boom"), Except.error (Status.unknown "boom")]
      1 (by decide) (by decide)).mpr (Or.inl (by decide))

/-! ## Helper lemmas about the per-container loops -/

/-- If every container's allocate call succeeds, the loop collects exactly the
plugin's results, in request order. -/
theorem allocateGo_all_ok (dp : GenericDevicePlugin)
    (reqs : List ContainerAllocateRequest)
    (h : ∀ req ∈ reqs, (dp.container_allocate req.devices_ids).isOk = true) :
    ∃ rs, allocateGo dp reqs = Except.ok rs ∧
      reqs.map (fun req => dp.container_allocate req.devices_ids) = rs.map Except.ok := by
  induction reqs with
  | nil => exact ⟨[], rfl, rfl⟩
  | cons req rest ih =>
    have h1 := h req (List.mem_cons_self _ _)
    cases hc : dp.container_allocate req.devices_ids with
    | error e =>
      rw [hc] at h1
      exact Bool.noConfusion h1
    | ok resp =>
      obtain ⟨rs, hgo, hmap⟩ := ih (fun r hr => h r (List.mem_cons_of_mem _ hr))
      refine ⟨resp :: rs, ?_, ?_⟩
      · simp [allocateGo, hc, hgo]
      · simp [List.map_cons, hc, hmap]

/-- If every container's prefer-allocate call succeeds, the loop collects
exactly the plugin's results, in request order. -/
theorem getPreferredAllocationGo_all_ok (dp : GenericDevicePlugin)
    (reqs : List ContainerPreferredAllocationRequest)
    (h : ∀ req ∈ reqs, (dp.get_container_preferred_allocation req.available_device_i_ds
      req.must_include_device_i_ds req.allocation_size).isOk = true) :
    ∃ rs, getPreferredAllocationGo dp reqs = Except.ok rs ∧
      reqs.map (fun req => dp.get_container_preferred_allocation req.available_device_i_ds
        req.must_include_device_i_ds req.allocation_size) = rs.map Except.ok := by
  induction reqs with
  | nil => exact ⟨[], rfl, rfl⟩
  | cons req rest ih =>
    have h1 := h req (List.mem_cons_self _ _)
    cases hc : dp.get_container_preferred_allocation req.available_device_i_ds
        req.must_include_device_i_ds req.allocation_size with
    | error e =>
      rw [hc] at h1
      exact Bool.noConfusion h1
    | ok resp =>
      obtain ⟨rs, hgo, hmap⟩ := ih (fun r hr => h r (List.mem_cons_of_mem _ hr))
      refine ⟨resp :: rs, ?_, ?_⟩
      · simp [getPreferredAllocationGo, hc, hgo]
      · simp [List.map_cons, hc, hmap]

/-- C2: when the plugin succeeds on every container, `Allocate` and
`GetPreferredAllocation` respond with exactly one entry per container, in
request order, the i-th entry being the plugin's result for the i-th
container's arguments. -/
theorem per_container_responses_in_order (dp : GenericDevicePlugin)
    (areq : AllocateRequest) (preq : PreferredAllocationRequest)
    (ha : ∀ req ∈ areq.container_requests,
      (dp.container_allocate req.devices_ids).isOk = true)
    (hp : ∀ req ∈ preq.container_requests,
      (dp.get_container_preferred_allocation req.available_device_i_ds
        req.must_include_device_i_ds req.allocation_size).isOk = true) :
    (∃ rs, allocate dp areq = Except.ok { container_responses := rs } ∧
      rs.length = areq.container_requests.length ∧
      areq.container_requests.map (fun req => dp.container_allocate req.devices_ids) =
        rs.map Except.ok) ∧
    (∃ ps, get_preferred_allocation dp preq = Except.ok { container_responses := ps } ∧
      ps.length = preq.container_requests.length ∧
      preq.container_requests.map (fun req => dp.get_container_preferred_allocation
        req.available_device_i_ds req.must_include_device_i_ds req.allocation_size) =
        ps.map Except.ok) := by
  constructor
  · obtain ⟨rs, hgo, hmap⟩ := allocateGo_all_ok dp areq.container_requests ha
    refine ⟨rs, ?_, ?_, hmap⟩
    · unfold allocate
      rw [hgo]
      rfl
    · have hlen := congrArg List.length hmap
      simpa using hlen.symm
  · obtain ⟨ps, hgo, hmap⟩ := getPreferredAllocationGo_all_ok dp preq.container_requests hp
    refine ⟨ps, ?_, ?_, hmap⟩
    · unfold get_preferred_allocation
      rw [hgo]
      rfl
    · have hlen := congrArg List.length hmap
      simpa using hlen.symm

/-- An everywhere-succeeding example plugin for witnesses. -/
def okPlugin : GenericDevicePlugin :=
  { pre_start_required := false
    get_preferred_allocation_available := true
    resource_name := "example.com/mock"
    container_allocate := fun _ =>
      Except.ok
        { envs := [], mounts := [], devices := [], annotations := [], cdi_devices := [] }
    get_container_preferred_allocation := fun avail _ _ =>
      Except.ok { device_ids := avail }
    pre_start_container := fun _ => Except.ok () }

/-- C2 witness: a two-container allocate request and a one-container
preferred-allocation request against the example plugin. -/
theorem per_container_responses_in_order_witness :
    (∃ rs, allocate okPlugin
        { container_requests := [{ devices_ids := ["d0"] }, { devices_ids := ["d1"] }] } =
          Except.ok { container_responses := rs } ∧
      rs.length = 2 ∧
      ([{ devices_ids := ["d0"] }, { devices_ids := ["d1"] }] :
          List ContainerAllocateRequest).map
          (fun req => okPlugin.container_allocate req.devices_ids) =
        rs.map Except.ok) ∧
    (∃ ps, get_preferred_allocation okPlugin
        { container_requests :=
          [{ available_device_i_ds := ["a", "b"], must_include_device_i_ds := ["a"],
             allocation_size := 1 }] } =
          Except.ok { container_responses := ps } ∧
      ps.length = 1 ∧
      ([{ available_device_i_ds := ["a", "b"], must_include_device_i_ds := ["a"],
          allocation_size := 1 }] : List ContainerPreferredAllocationRequest).map
          (fun req => okPlugin.get_container_preferred_allocation req.available_device_i_ds
            req.must_include_device_i_ds req.allocation_size) =
        ps.map Except.ok) :=
  per_container_responses_in_order okPlugin
    { container_requests := [{ devices_ids := ["d0"] }, { devices_ids := ["d1"] }] }
    { container_requests :=
      [{ available_device_i_ds := ["a", "b"], must_include_device_i_ds := ["a"],
         allocation_size := 1 }] }
    (by decide) (by decide)

/-- On the first failing container, the allocate loop returns that error, and
the plugin is called exactly for containers 0..k (inclusive), none after. -/
theorem allocateGo_failfast (dp : GenericDevicePlugin) :
    ∀ (reqs : List ContainerAllocateRequest) (k : Nat) (hk : k < reqs.length) (e : Status),
      (∀ j (hj : j < k),
        (dp.container_allocate (reqs.get ⟨j, Nat.lt_trans hj hk⟩).devices_ids).isOk = true) →
      dp.container_allocate (reqs.get ⟨k, hk⟩).devices_ids = Except.error e →
      allocateGo dp reqs = Except.error e ∧
      allocateCalls dp reqs = (reqs.take (k + 1)).map (fun req => req.devices_ids)
  | [], k, hk, _, _, _ => absurd hk (by simp)
  | req :: rest, 0, _, e, _, herr => by
    have herr2 : dp.container_allocate req.devices_ids = Except.error e := herr
    constructor
    · simp [allocateGo, herr2]
    · simp [allocateCalls, herr2]
  | req :: rest, k + 1, hk, e, hok, herr => by
    have h0 : (dp.container_allocate req.devices_ids).isOk = true := hok 0 (Nat.succ_pos k)
    cases hc : dp.container_allocate req.devices_ids with
    | error e1 =>
      rw [hc] at h0
      exact Bool.noConfusion h0
    | ok resp =>
      have hk2 : k < rest.length := Nat.lt_of_succ_lt_succ hk
      have hok2 : ∀ j (hj : j < k),
          (dp.container_allocate (rest.get ⟨j, Nat.lt_trans hj hk2⟩).devices_ids).isOk =
            true :=
        fun j hj => hok (j + 1) (Nat.succ_lt_succ hj)
      have herr2 : dp.container_allocate (rest.get ⟨k, hk2⟩).devices_ids =
          Except.error e := herr
      obtain ⟨hgo, hcalls⟩ := allocateGo_failfast dp rest k hk2 e hok2 herr2
      constructor
      · simp [allocateGo, hc, hgo]
      · simp [allocateCalls, hc, hcalls]

/-- On the first failing container, the prefer-allocate loop returns that
error, and the plugin is called exactly for containers 0..k, none after. -/
theorem getPreferredAllocationGo_failfast (dp : GenericDevicePlugin) :
    ∀ (reqs : List ContainerPreferredAllocationRequest) (k : Nat) (hk : k < reqs.length)
      (e : Status),
      (∀ j (hj : j < k),
        (dp.get_container_preferred_allocation
          (reqs.get ⟨j, Nat.lt_trans hj hk⟩).available_device_i_ds
          (reqs.get ⟨j, Nat.lt_trans hj hk⟩).must_include_device_i_ds
          (reqs.get ⟨j, Nat.lt_trans hj hk⟩).allocation_size).isOk = true) →
      dp.get_container_preferred_allocation (reqs.get ⟨k, hk⟩).available_device_i_ds
        (reqs.get ⟨k, hk⟩).must_include_device_i_ds
        (reqs.get ⟨k, hk⟩).allocation_size = Except.error e →
      getPreferredAllocationGo dp reqs = Except.error e ∧
      getPreferredAllocationCalls dp reqs = (reqs.take (k + 1)).map
        (fun req =>
          (req.available_device_i_ds, req.must_include_device_i_ds, req.allocation_size))
  | [], k, hk, _, _, _ => absurd hk (by simp)
  | req :: rest, 0, _, e, _, herr => by
    have herr2 : dp.get_container_preferred_allocation req.available_device_i_ds
        req.must_include_device_i_ds req.allocation_size = Except.error e := herr
    constructor
    · simp [getPreferredAllocationGo, herr2]
    · simp [getPreferredAllocationCalls, herr2]
  | req :: rest, k + 1, hk, e, hok, herr => by
    have h0 : (dp.get_container_preferred_allocation req.available_device_i_ds
        req.must_include_device_i_ds req.allocation_size).isOk = true :=
      hok 0 (Nat.succ_pos k)
    cases hc : dp.get_container_preferred_allocation req.available_device_i_ds
        req.must_include_device_i_ds req.allocation_size with
    | error e1 =>
      rw [hc] at h0
      exact Bool.noConfusion h0
    | ok resp =>
      have hk2 : k < rest.length := Nat.lt_of_succ_lt_succ hk
      have hok2 : ∀ j (hj : j < k),
          (dp.get_container_preferred_allocation
            (rest.get ⟨j, Nat.lt_trans hj hk2⟩).available_device_i_ds
            (rest.get ⟨j, Nat.lt_trans hj hk2⟩).must_include_device_i_ds
            (rest.get ⟨j, Nat.lt_trans hj hk2⟩).allocation_size).isOk = true :=
        fun j hj => hok (j + 1) (Nat.succ_lt_succ hj)
      have herr2 : dp.get_container_preferred_allocation
          (rest.get ⟨k, hk2⟩).available_device_i_ds
          (rest.get ⟨k, hk2⟩).must_include_device_i_ds
          (rest.get ⟨k, hk2⟩).allocation_size = Except.error e := herr
      obtain ⟨hgo, hcalls⟩ := getPreferredAllocationGo_failfast dp rest k hk2 e hok2 herr2
      constructor
      · simp [getPreferredAllocationGo, hc, hgo]
      · simp [getPreferredAllocationCalls, hc, hcalls]

/-- C3: if the plugin fails on the k-th container of an `Allocate` or
`GetPreferredAllocation` request, the RPC returns exactly that error with no
partial response, and the plugin is not invoked for any later container; a
failing `PreStartContainer` delegation likewise surfaces as exactly that
error. -/
theorem fail_fast_first_error (dp : GenericDevicePlugin)
    (areqs : List ContainerAllocateRequest) (k : Nat) (hk : k < areqs.length) (e : Status)
    (hok : ∀ j (hj : j < k),
      (dp.container_allocate (areqs.get ⟨j, Nat.lt_trans hj hk⟩).devices_ids).isOk = true)
    (herr : dp.container_allocate (areqs.get ⟨k, hk⟩).devices_ids = Except.error e)
    (preqs : List ContainerPreferredAllocationRequest) (m : Nat) (hm : m < preqs.length)
    (e2 : Status)
    (hok2 : ∀ j (hj : j < m),
      (dp.get_container_preferred_allocation
        (preqs.get ⟨j, Nat.lt_trans hj hm⟩).available_device_i_ds
        (preqs.get ⟨j, Nat.lt_trans hj hm⟩).must_include_device_i_ds
        (preqs.get ⟨j, Nat.lt_trans hj hm⟩).allocation_size).isOk = true)
    (herr2 : dp.get_container_preferred_allocation
      (preqs.get ⟨m, hm⟩).available_device_i_ds
      (preqs.get ⟨m, hm⟩).must_include_device_i_ds
      (preqs.get ⟨m, hm⟩).allocation_size = Except.error e2)
    (ids : List String) (e3 : Status)
    (herr3 : dp.pre_start_container ids = Except.error e3) :
    allocate dp { container_requests := areqs } = Except.error e ∧
    allocateCalls dp areqs = (areqs.take (k + 1)).map (fun req => req.devices_ids) ∧
    get_preferred_allocation dp { container_requests := preqs } = Except.error e2 ∧
    getPreferredAllocationCalls dp preqs = (preqs.take (m + 1)).map
      (fun req =>
        (req.available_device_i_ds, req.must_include_device_i_ds, req.allocation_size)) ∧
    pre_start_container dp { devices_ids := ids } = Except.error e3 := by
  obtain ⟨hgo, hcalls⟩ := allocateGo_failfast dp areqs k hk e hok herr
  obtain ⟨hgo2, hcalls2⟩ := getPreferredAllocationGo_failfast dp preqs m hm e2 hok2 herr2
  refine ⟨?_, hcalls, ?_, hcalls2, ?_⟩
  · unfold allocate
    rw [hgo]
    rfl
  · unfold get_preferred_allocation
    rw [hgo2]
    rfl
  · unfold pre_start_container
    rw [herr3]
    rfl

/-- An example plugin that fails on the device id "bad" and on pre-start. -/
def failingPlugin : GenericDevicePlugin :=
  { pre_start_required := true
    get_preferred_allocation_available := true
    resource_name := "example.com/mock"
    container_allocate := fun ids =>
      if ids = ["bad"] then Except.error (Status.unknown "alloc failed")
      else Except.ok
        { envs := [], mounts := [], devices := [], annotations := [], cdi_devices := [] }
    get_container_preferred_allocation := fun avail _ _ =>
      if avail = ["bad"] then Except.error (Status.unknown "gpa failed")
      else Except.ok { device_ids := avail }
    pre_start_container := fun _ => Except.error (Status.unknown "psc failed") }

/-- C3 witness: a three-container allocate request failing on container 1, a
one-container preferred-allocation request failing on container 0, and a
failing pre-start delegation. -/
theorem fail_fast_first_error_witness :
    allocate failingPlugin
        { container_requests :=
          [{ devices_ids := ["good"] }, { devices_ids := ["bad"] },
           { devices_ids := ["skipped"] }] } =
      Except.error (Status.unknown "alloc failed") ∧
    allocateCalls failingPlugin
        [{ devices_ids := ["good"] }, { devices_ids := ["bad"] },
         { devices_ids := ["skipped"] }] =
      [["good"], ["bad"]] ∧
    get_preferred_allocation failingPlugin
        { container_requests :=
          [{ available_device_i_ds := ["bad"], must_include_device_i_ds := [],
             allocation_size := 1 }] } =
      Except.error (Status.unknown "gpa failed") ∧
    getPreferredAllocationCalls failingPlugin
        [{ available_device_i_ds := ["bad"], must_include_device_i_ds := [],
           allocation_size := 1 }] =
      [(["bad"], [], 1)] ∧
    pre_start_container failingPlugin { devices_ids := ["x"] } =
      Except.error (Status.unknown "psc failed") :=
  fail_fast_first_error failingPlugin
    [{ devices_ids := ["good"] }, { devices_ids := ["bad"] },
     { devices_ids := ["skipped"] }]
    1 (by decide) (Status.unknown "alloc failed") (by decide) (by decide)
    [{ available_device_i_ds := ["bad"], must_include_device_i_ds := [],
       allocation_size := 1 }]
    0 (by decide) (Status.unknown "gpa failed") (by decide) (by decide)
    ["x"] (Status.unknown "psc failed") (by decide)

/-- The per-container prefer-allocate loop does not read the capability
flags: changing them does not change its result. -/
theorem getPreferredAllocationGo_withFlags (dp : GenericDevicePlugin) (a b : Bool)
    (l : List ContainerPreferredAllocationRequest) :
    getPreferredAllocationGo (withFlags dp a b) l = getPreferredAllocationGo dp l := by
  induction l with
  | nil => rfl
  | cons req rest ih =>
    unfold getPreferredAllocationGo
    rw [ih]
    rfl

/-- Any error of the prefer-allocate loop is an error returned by the plugin
for one of the request's containers. -/
theorem getPreferredAllocationGo_error_source (dp : GenericDevicePlugin)
    (reqs : List ContainerPreferredAllocationRequest) (e : Status)
    (h : getPreferredAllocationGo dp reqs = Except.error e) :
    ∃ req ∈ reqs, dp.get_container_preferred_allocation req.available_device_i_ds
      req.must_include_device_i_ds req.allocation_size = Except.error e := by
  induction reqs with
  | nil => exact Except.noConfusion h
  | cons req rest ih =>
    unfold getPreferredAllocationGo at h
    split at h
    · rename_i e1 heq
      cases h
      exact ⟨req, List.mem_cons_self _ _, heq⟩
    · rename_i resp heq
      split at h
      · rename_i e2 heq2
        cases h
        obtain ⟨r, hr, hcall⟩ := ih heq2
        exact ⟨r, List.mem_cons_of_mem _ hr, hcall⟩
      · exact Except.noConfusion h

/-- C7: `GetPreferredAllocation` and `PreStartContainer` delegate to the
plugin unconditionally: their results are unchanged by any setting of the two
capability flags, the first container is always passed to the plugin, the
adapter adds no status of its own (`PreStartContainer` is exactly the
delegation result, and every error either RPC returns originates from a
plugin call). -/
theorem adapter_delegates_unconditionally (dp : GenericDevicePlugin)
    (psr gpaa psr2 gpaa2 : Bool)
    (preq : PreferredAllocationRequest) (sreq : PreStartContainerRequest)
    (req1 : ContainerPreferredAllocationRequest)
    (rest : List ContainerPreferredAllocationRequest) :
    get_preferred_allocation (withFlags dp psr gpaa) preq =
      get_preferred_allocation (withFlags dp psr2 gpaa2) preq ∧
    pre_start_container (withFlags dp psr gpaa) sreq =
      pre_start_container (withFlags dp psr2 gpaa2) sreq ∧
    pre_start_container dp sreq =
      (dp.pre_start_container sreq.devices_ids).map (fun _ => {}) ∧
    (getPreferredAllocationCalls dp (req1 :: rest)).head? =
      some (req1.available_device_i_ds, req1.must_include_device_i_ds,
        req1.allocation_size) ∧
    (∀ e, get_preferred_allocation dp preq = Except.error e →
      ∃ req ∈ preq.container_requests,
        dp.get_container_preferred_allocation req.available_device_i_ds
          req.must_include_device_i_ds req.allocation_size = Except.error e) ∧
    (∀ e, pre_start_container dp sreq = Except.error e →
      dp.pre_start_container sreq.devices_ids = Except.error e) := by
  refine ⟨?_, rfl, rfl, ?_, ?_, ?_⟩
  · unfold get_preferred_allocation
    rw [getPreferredAllocationGo_withFlags, getPreferredAllocationGo_withFlags]
  · cases hc : dp.get_container_preferred_allocation req1.available_device_i_ds
        req1.must_include_device_i_ds req1.allocation_size <;>
      simp [getPreferredAllocationCalls, hc]
  · intro e h
    unfold get_preferred_allocation at h
    cases hg : getPreferredAllocationGo dp preq.container_requests with
    | error e1 =>
      rw [hg] at h
      cases h
      exact getPreferredAllocationGo_error_source dp _ _ hg
    | ok rs =>
      rw [hg] at h
      exact Except.noConfusion h
  · intro e h
    unfold pre_start_container at h
    cases hs : dp.pre_start_container sreq.devices_ids with
    | error e1 =>
      rw [hs] at h
      have he : e1 = e := by
        simpa [Except.map] using h
      rw [he]
    | ok u =>
      rw [hs] at h
      exact Except.noConfusion h

/-- C7 witness: concrete delegation facts for the example plugin, obtained
from the theorem. -/
theorem adapter_delegates_unconditionally_witness :
    pre_start_container okPlugin { devices_ids := ["d0"] } =
      (okPlugin.pre_start_container ["d0"]).map (fun _ => {}) ∧
    (getPreferredAllocationCalls okPlugin
        [{ available_device_i_ds := ["a"], must_include_device_i_ds := [],
           allocation_size := 1 }]).head? =
      some (["a"], [], 1) :=
  ⟨(adapter_delegates_unconditionally okPlugin true true false false
      { container_requests := [] } { devices_ids := ["d0"] }
      { available_device_i_ds := ["a"], must_include_device_i_ds := [],
        allocation_size := 1 } []).2.2.1,
   (adapter_delegates_unconditionally okPlugin true true false false
      { container_requests := [] } { devices_ids := ["d0"] }
      { available_device_i_ds := ["a"], must_include_device_i_ds := [],
        allocation_size := 1 } []).2.2.2.1⟩

/-- The loop body never reads the result of the final best-effort
`fs::remove_file` (the source discards it with `let _ =`). -/
theorem runIter_ignores_final_remove (env : IterEnv) (fr : Except IoError Unit) :
    runIter { env with final_remove_result := fr } = runIter env :=
  rfl

/-- Every successfully completed iteration attempted the final socket-file
removal. -/
theorem runIter_ok_attempted (env : IterEnv) (t : IterTrace)
    (h : runIter env = Except.ok t) : t.attempted_final_remove = true := by
  unfold runIter at h
  split at h
  · exact Except.noConfusion h
  · split at h
    · exact Except.noConfusion h
    · split at h
      · exact Except.noConfusion h
      · split at h
        · exact Except.noConfusion h
        · split at h
          · exact Except.noConfusion h
          · cases h
            rfl

/-- After a completed iteration the loop goes right back to probing: the rest
of the trace is processed unchanged, prefixed by this iteration. -/
theorem run_cons_ok (env : IterEnv) (es : List IterEnv) (t : IterTrace)
    (h : runIter env = Except.ok t) :
    run (env :: es) = (run es).map (fun ts => t :: ts) := by
  have hrun : run (env :: es) =
      match runIter env with
      | .error er => .error er
      | .ok t =>
        match run es with
        | .error er => .error er
        | .ok ts => .ok (t :: ts) := rfl
  rw [hrun, h]
  cases hr : run es with
  | error er => rfl
  | ok ts => rfl

/-- `run` only returns `Except.ok` by exhausting the supplied environments,
having completed every single iteration: it never stops early with success. -/
theorem run_ok_length :
    ∀ (es : List IterEnv) (ts : List IterTrace),
      run es = Except.ok ts → ts.length = es.length
  | [], _, h => by
    cases h
    rfl
  | env :: rest, ts, h => by
    unfold run at h
    split at h
    · exact Except.noConfusion h
    · split at h
      · exact Except.noConfusion h
      · cases h
        rename_i ts2 hts2
        simp [run_ok_length rest ts2 hts2]

/-- C8: whenever an iteration's serving task has ended, the socket file
removal is attempted with its outcome ignored (best-effort), the manager
returns to probing with the remaining iterations, and the loop never
terminates with a success value: success only means the finite environment
prefix is exhausted with every iteration completed. -/
theorem serving_end_cleanup_and_loop (env : IterEnv) (es : List IterEnv)
    (t : IterTrace) (fr : Except IoError Unit) (h : runIter env = Except.ok t) :
    t.attempted_final_remove = true ∧
    runIter { env with final_remove_result := fr } = Except.ok t ∧
    run (env :: es) = (run es).map (fun ts => t :: ts) ∧
    (∀ ts, run (env :: es) = Except.ok ts → ts.length = es.length + 1) := by
  refine ⟨runIter_ok_attempted env t h, ?_, run_cons_ok env es t h, ?_⟩
  · rw [runIter_ignores_final_remove]
    exact h
  · intro ts hts
    simpa using run_ok_length (env :: es) ts hts

/-- An iteration environment whose serving generation completes, with the
final removal failing (socket already gone). -/
def envQuiet : IterEnv :=
  { connect_result := Except.error ConnectError.notFound
    remove_stale_result := Except.ok ()
    bind_result := Except.ok ()
    watcher_create_result := Except.ok ()
    watcher_watch_result := Except.ok ()
    register_result := Except.ok ()
    final_remove_result := Except.error { msg := "already gone" } }

/-- The trace of `envQuiet`. -/
def traceQuiet : IterTrace :=
  { removed_stale_socket := false
    bound := true
    served := true
    registered := true
    attempted_final_remove := true }

/-- C8 witness: one completed iteration with a failing final removal; the
removal was attempted, its failure is ignored, and the loop continues. -/
theorem serving_end_cleanup_and_loop_witness :
    traceQuiet.attempted_final_remove = true ∧
    runIter { envQuiet with final_remove_result := Except.error { msg := "gone" } } =
      Except.ok traceQuiet ∧
    run [envQuiet] = (run []).map (fun ts => traceQuiet :: ts) :=
  ⟨(serving_end_cleanup_and_loop envQuiet [] traceQuiet
      (Except.error { msg := "gone" }) (by decide)).1,
   (serving_end_cleanup_and_loop envQuiet [] traceQuiet
      (Except.error { msg := "gone" }) (by decide)).2.1,
   (serving_end_cleanup_and_loop envQuiet [] traceQuiet
      (Except.error { msg := "gone" }) (by decide)).2.2.1⟩
